import Mathlib

/-!
Shallow embedding of the switcheroo-control GPU detection core
(src/switcheroo-control.c).

A udev device is modelled by the handful of attributes the program reads:
its device file path, its parent's driver name and properties, the
`ID_PATH_TAG` property on the device itself, and the parent's `boot_vga`
sysfs attribute.  `none` stands for a NULL return from the corresponding
gudev getter.  The `info_cleanup` utility lives outside this source file
and is treated as an abstract pure function `cleanup : String → String`
passed as a parameter.
-/

/-- The attributes of a udev device (and its parent) that the program reads. -/
structure UdevDevice where
  deviceFile : Option String
  parentDriver : Option String
  idPathTag : Option String
  vendorOverrideName : Option String
  vendorFromDatabase : Option String
  productOverrideName : Option String
  modelFromDatabase : Option String
  bootVga : Bool
deriving DecidableEq, Repr

/-- A published card: `get_card_data`'s result (CardData in the C source).
The environment is the flattened key/value string list, as in the source. -/
structure CardData where
  name : String
  env : List String
  is_default : Bool
deriving DecidableEq, Repr, Inhabited

/-- Embeds `get_card_env`: on an "nvidia" parent driver, the three fixed
pairs; otherwise a `DRI_PRIME` pair from `ID_PATH_TAG` when present.  The C
code frees the array and returns NULL when it is empty, which happens
exactly in the no-tag branch; `none` models that NULL return. -/
def get_card_env (dev : UdevDevice) : Option (List String) :=
  if dev.parentDriver = some "nvidia" then
    some ["__GLX_VENDOR_LIBRARY_NAME", "nvidia",
          "__NV_PRIME_RENDER_OFFLOAD", "1",
          "__VK_LAYER_NV_optimus", "NVIDIA_only"]
  else
    match dev.idPathTag with
    | some id => some ["DRI_PRIME", id]
    | none => none

/-- The vendor string `get_card_name` settles on: the
`SWITCHEROO_CONTROL_VENDOR_NAME` override unless NULL or empty, else
`ID_VENDOR_FROM_DATABASE`. -/
def effective_vendor (dev : UdevDevice) : Option String :=
  match dev.vendorOverrideName with
  | some v => if v = "" then dev.vendorFromDatabase else some v
  | none => dev.vendorFromDatabase

/-- The product string `get_card_name` settles on: the
`SWITCHEROO_CONTROL_PRODUCT_NAME` override unless NULL or empty, else
`ID_MODEL_FROM_DATABASE`. -/
def effective_product (dev : UdevDevice) : Option String :=
  match dev.productOverrideName with
  | some p => if p = "" then dev.modelFromDatabase else some p
  | none => dev.modelFromDatabase

/-- Embeds `get_card_name`, parametrised by the external `info_cleanup`
string utility. -/
def get_card_name (cleanup : String → String) (dev : UdevDevice) : String :=
  match effective_vendor dev, effective_product dev with
  | none, none => "Unknown Graphics Controller"
  | none, some product => product
  | some vendor, none => vendor
  | some vendor, some product => cleanup (vendor ++ " " ++ product)

/-- Embeds `get_card_is_default`: the parent's `boot_vga` sysfs attribute. -/
def get_card_is_default (dev : UdevDevice) : Bool :=
  dev.bootVga

/-- Embeds `get_card_data`: NULL (here `none`) when the environment is
empty, otherwise the assembled card. -/
def get_card_data (cleanup : String → String) (dev : UdevDevice) : Option CardData :=
  match get_card_env dev with
  | none => none
  | some env =>
      some { name := get_card_name cleanup dev
             env := env
             is_default := get_card_is_default dev }

/-- The card `add_fake_intel_card` appends. -/
def fake_intel_card : CardData :=
  { name := "Intel i740 “Auburn”"
    env := ["INTEL_AGP_OFFLOADING", "1", "INTEL_PCI_MODE", "false"]
    is_default := false }

/-- The card `add_fake_trident_card` appends. -/
def fake_trident_card : CardData :=
  { name := "Trident Vesa Local Bus 512KB"
    env := ["TRIDENT_OFFLOADING", "1"]
    is_default := false }

/-- The render-node filter in `get_drm_cards`: the device file exists and
starts with "/dev/dri/render" (`g_str_has_prefix`, embedded as a prefix
test on the character lists). -/
def is_render_node (dev : UdevDevice) : Bool :=
  match dev.deviceFile with
  | some path => "/dev/dri/render".data.isPrefixOf path.data
  | none => false

/-- The loop body of `get_drm_cards` over the drm subsystem query result:
keep `get_card_data` of each render node, skip the rest. -/
def collect_real_cards (cleanup : String → String) (devices : List UdevDevice) :
    List CardData :=
  devices.filterMap (fun d =>
    if is_render_node d then get_card_data cleanup d else none)

/-- The card list `get_drm_cards` assembles before its post-processing
step: fake Intel card first (fake mode only), then the real cards in
enumeration order, then the fake Trident card (fake mode only). -/
def collect_cards (cleanup : String → String) (fake : Bool)
    (devices : List UdevDevice) : List CardData :=
  (if fake then [fake_intel_card] else [])
    ++ collect_real_cards cleanup devices
    ++ (if fake then [fake_trident_card] else [])

/-- Embeds `get_drm_cards`: assemble the card list, then force the only
card to be the default when exactly one card was retained. -/
def get_drm_cards (cleanup : String → String) (fake : Bool)
    (devices : List UdevDevice) : List CardData :=
  if (collect_cards cleanup fake devices).length = 1 then
    (collect_cards cleanup fake devices).map (fun c => { c with is_default := true })
  else
    collect_cards cleanup fake devices

/-- The mutable fields of ControlData that the detection core touches:
the current snapshot (`num_gpus`, `cards`) and whether a D-Bus connection
has been established (`connection != NULL`). -/
structure ControlState where
  num_gpus : Nat
  cards : List CardData
  connection : Bool
deriving DecidableEq, Repr

/-- The PropertiesChanged payload `send_dbus_event` builds. -/
structure DBusEvent where
  hasDualGpu : Bool
  numGPUs : Nat
  gpus : List CardData
deriving DecidableEq, Repr

/-- Embeds `send_dbus_event`: returns without emitting when no connection
exists, otherwise emits the three properties.  The function reads state
and never modifies it, so it is modelled as a pure emission. -/
def send_dbus_event (st : ControlState) : Option DBusEvent :=
  if st.connection then
    some { hasDualGpu := decide (2 ≤ st.num_gpus)
           numGPUs := st.num_gpus
           gpus := st.cards }
  else
    none

/-- Embeds `uevent_cb`: re-enumerate, and when the new count differs from
the stored one, replace the snapshot and call `send_dbus_event`; otherwise
free the new cards and keep the state untouched.  The second component is
the emitted signal, if any. -/
def uevent_cb (cleanup : String → String) (fake : Bool)
    (devices : List UdevDevice) (st : ControlState) :
    ControlState × Option DBusEvent :=
  let cards := get_drm_cards cleanup fake devices
  if cards.length ≠ st.num_gpus then
    let st2 : ControlState :=
      { num_gpus := cards.length, cards := cards, connection := st.connection }
    (st2, send_dbus_event st2)
  else
    (st, none)

/-- Embeds `get_num_gpus` plus D-Bus setup in `main`: the state after the
initial enumeration, with `conn` recording whether the bus connection was
established. -/
def init_state (cleanup : String → String) (fake : Bool)
    (devices : List UdevDevice) (conn : Bool) : ControlState :=
  { num_gpus := (get_drm_cards cleanup fake devices).length
    cards := get_drm_cards cleanup fake devices
    connection := conn }

/-- A concrete NVIDIA render node, used in witnesses; its path tag shows
that the nvidia branch ignores it. -/
def sample_nvidia_device : UdevDevice :=
  { deviceFile := some "/dev/dri/renderD129"
    parentDriver := some "nvidia"
    idPathTag := some "pci-0000_01_00_0"
    vendorOverrideName := none
    vendorFromDatabase := some "NVIDIA Corporation"
    productOverrideName := none
    modelFromDatabase := some "GP107M"
    bootVga := false }

/-- A concrete generic (non-nvidia) render node with a path tag, used in
witnesses. -/
def sample_intel_device : UdevDevice :=
  { deviceFile := some "/dev/dri/renderD128"
    parentDriver := some "i915"
    idPathTag := some "pci-0000_00_02_0"
    vendorOverrideName := none
    vendorFromDatabase := some "Intel Corporation"
    productOverrideName := none
    modelFromDatabase := some "HD Graphics 620"
    bootVga := true }

/-- A render node whose `ID_VENDOR_FROM_DATABASE` is present but equal to
the empty string, and which has no product strings at all.  `get_card_name`
returns the empty string on it. -/
def empty_vendor_device : UdevDevice :=
  { deviceFile := some "/dev/dri/renderD128"
    parentDriver := some "i915"
    idPathTag := some "pci-0000_00_02_0"
    vendorOverrideName := none
    vendorFromDatabase := some ""
    productOverrideName := none
    modelFromDatabase := none
    bootVga := false }

/-- A generic render node without an `ID_PATH_TAG` property: its resolved
environment is empty, so enumeration skips it. -/
def no_tag_device : UdevDevice :=
  { deviceFile := some "/dev/dri/renderD130"
    parentDriver := some "amdgpu"
    idPathTag := none
    vendorOverrideName := none
    vendorFromDatabase := some "Advanced Micro Devices, Inc."
    productOverrideName := none
    modelFromDatabase := some "Renoir"
    bootVga := false }

/-- A state with two cards but no D-Bus connection. -/
def disconnected_state : ControlState :=
  { num_gpus := 2
    cards := [fake_intel_card, fake_trident_card]
    connection := false }

/-- A process-wide state holding one card whose content differs from what
re-enumeration of `sample_intel_device` produces, while the counts
match. -/
def stale_state : ControlState :=
  { num_gpus := 1
    cards := [{ name := "Stale GPU"
                env := ["DRI_PRIME", "pci-old"]
                is_default := false }]
    connection := true }

/- Helper lemmas shared by the claims below. -/

theorem get_card_env_ne_nil (dev : UdevDevice) (l : List String)
    (h : get_card_env dev = some l) : l ≠ [] := by
  unfold get_card_env at h
  split at h
  · cases h
    simp
  · cases hid : dev.idPathTag <;> rw [hid] at h
    · cases h
    · cases h
      simp

theorem get_card_data_isSome (cleanup : String → String) (dev : UdevDevice) :
    (get_card_data cleanup dev).isSome = (get_card_env dev).isSome := by
  unfold get_card_data
  cases get_card_env dev <;> rfl

theorem get_card_data_fields (cleanup : String → String) (dev : UdevDevice)
    (c : CardData) (h : get_card_data cleanup dev = some c) :
    get_card_env dev = some c.env ∧ c.is_default = dev.bootVga ∧
      c.name = get_card_name cleanup dev := by
  unfold get_card_data at h
  cases he : get_card_env dev <;> rw [he] at h
  · cases h
  · cases h
    exact ⟨rfl, rfl, rfl⟩

theorem collect_real_cards_length_eq (cleanup : String → String)
    (devices : List UdevDevice) :
    (collect_real_cards cleanup devices).length =
      (devices.filter (fun d => is_render_node d && (get_card_env d).isSome)).length := by
  induction devices with
  | nil => rfl
  | cons d rest ih =>
    unfold collect_real_cards at ih ⊢
    rw [List.filterMap_cons, List.filter_cons]
    by_cases hr : is_render_node d = true
    · simp only [hr, if_true, Bool.true_and]
      cases hc : get_card_data cleanup d
      · have he : (get_card_env d).isSome = false := by
          rw [← get_card_data_isSome cleanup d, hc]
          rfl
        simp [he, ih]
      · have he : (get_card_env d).isSome = true := by
          rw [← get_card_data_isSome cleanup d, hc]
          rfl
        simp [he, ih]
    · have hr' : is_render_node d = false := by
        cases h : is_render_node d
        · rfl
        · exact absurd h hr
      simp [hr', ih]

theorem collect_cards_false_eq (cleanup : String → String)
    (devices : List UdevDevice) :
    collect_cards cleanup false devices = collect_real_cards cleanup devices := by
  simp [collect_cards]

theorem get_drm_cards_length_eq (cleanup : String → String) (fake : Bool)
    (devices : List UdevDevice) :
    (get_drm_cards cleanup fake devices).length =
      (collect_cards cleanup fake devices).length := by
  unfold get_drm_cards
  split
  · rw [List.length_map]
  · rfl

theorem mem_collect_cards_env_ne_nil (cleanup : String → String) (fake : Bool)
    (devices : List UdevDevice) (c : CardData)
    (hc : c ∈ collect_cards cleanup fake devices) : c.env ≠ [] := by
  unfold collect_cards at hc
  rw [List.mem_append, List.mem_append] at hc
  rcases hc with (hc | hc) | hc
  · cases fake <;> simp only [if_true, if_false, Bool.false_eq_true] at hc
    · cases hc
    · rw [List.mem_singleton] at hc
      subst hc
      simp [fake_intel_card]
  · unfold collect_real_cards at hc
    rw [List.mem_filterMap] at hc
    obtain ⟨d, _, hd⟩ := hc
    by_cases hr : is_render_node d = true
    · rw [if_pos hr] at hd
      obtain ⟨he, -, -⟩ := get_card_data_fields cleanup d c hd
      exact get_card_env_ne_nil d c.env he
    · rw [if_neg hr] at hd
      cases hd
  · cases fake <;> simp only [if_true, if_false, Bool.false_eq_true] at hc
    · cases hc
    · rw [List.mem_singleton] at hc
      subst hc
      simp [fake_trident_card]

/-- C3: a device whose parent driver is "nvidia" resolves to exactly the
three fixed environment pairs, flattened in order
`__GLX_VENDOR_LIBRARY_NAME=nvidia`, `__NV_PRIME_RENDER_OFFLOAD=1`,
`__VK_LAYER_NV_optimus=NVIDIA_only`, whatever the device's `ID_PATH_TAG`
property holds. -/
theorem nvidia_env_fixed_triple (dev : UdevDevice)
    (h : dev.parentDriver = some "nvidia") :
    get_card_env dev =
      some ["__GLX_VENDOR_LIBRARY_NAME", "nvidia",
            "__NV_PRIME_RENDER_OFFLOAD", "1",
            "__VK_LAYER_NV_optimus", "NVIDIA_only"] := by
  unfold get_card_env
  rw [if_pos]
  rw [h]

theorem nvidia_env_fixed_triple_witness :
    sample_nvidia_device.parentDriver = some "nvidia" ∧
    get_card_env sample_nvidia_device =
      some ["__GLX_VENDOR_LIBRARY_NAME", "nvidia",
            "__NV_PRIME_RENDER_OFFLOAD", "1",
            "__VK_LAYER_NV_optimus", "NVIDIA_only"] :=
  ⟨by decide, nvidia_env_fixed_triple sample_nvidia_device (by decide)⟩

/-- C4: a non-nvidia device with an `ID_PATH_TAG` resolves to the single
pair `DRI_PRIME=<tag>`; without the tag its environment is empty, so
`get_card_data` drops it; and every card in every list `get_drm_cards`
returns has a non-empty environment. -/
theorem non_nvidia_env_and_nonempty_invariant :
    (∀ dev : UdevDevice, dev.parentDriver ≠ some "nvidia" →
      (∀ tag, dev.idPathTag = some tag →
        get_card_env dev = some ["DRI_PRIME", tag]) ∧
      (dev.idPathTag = none →
        get_card_env dev = none ∧
        ∀ cleanup : String → String, get_card_data cleanup dev = none)) ∧
    (∀ (cleanup : String → String) (fake : Bool) (devices : List UdevDevice),
      ∀ c ∈ get_drm_cards cleanup fake devices, c.env ≠ []) := by
  constructor
  · intro dev hnv
    constructor
    · intro tag htag
      unfold get_card_env
      rw [if_neg hnv, htag]
    · intro htag
      have henv : get_card_env dev = none := by
        unfold get_card_env
        rw [if_neg hnv, htag]
      refine ⟨henv, fun cleanup => ?_⟩
      unfold get_card_data
      rw [henv]
  · intro cleanup fake devices c hc
    unfold get_drm_cards at hc
    split at hc
    · rw [List.mem_map] at hc
      obtain ⟨c', hc', rfl⟩ := hc
      exact mem_collect_cards_env_ne_nil cleanup fake devices c' hc'
    · exact mem_collect_cards_env_ne_nil cleanup fake devices c hc

theorem non_nvidia_env_witness :
    get_card_env sample_intel_device = some ["DRI_PRIME", "pci-0000_00_02_0"] :=
  ((non_nvidia_env_and_nonempty_invariant.1 sample_intel_device
      (by decide)).1 "pci-0000_00_02_0" (by decide))

/-- C6: `get_card_name` case analysis over the effective vendor and
product strings: both absent yields the literal fallback, a single present
string is returned unmodified, and two present strings are joined with a
single space and passed through the cleanup utility.  All cases return a
string; there is no failure mode. -/
theorem get_card_name_cases (cleanup : String → String) (dev : UdevDevice) :
    (effective_vendor dev = none → effective_product dev = none →
      get_card_name cleanup dev = "Unknown Graphics Controller") ∧
    (∀ v, effective_vendor dev = some v → effective_product dev = none →
      get_card_name cleanup dev = v) ∧
    (∀ p, effective_vendor dev = none → effective_product dev = some p →
      get_card_name cleanup dev = p) ∧
    (∀ v p, effective_vendor dev = some v → effective_product dev = some p →
      get_card_name cleanup dev = cleanup (v ++ " " ++ p)) := by
  refine ⟨?_, ?_, ?_, ?_⟩
  · intro hv hp
    unfold get_card_name
    rw [hv, hp]
  · intro v hv hp
    unfold get_card_name
    rw [hv, hp]
  · intro p hv hp
    unfold get_card_name
    rw [hv, hp]
  · intro v p hv hp
    unfold get_card_name
    rw [hv, hp]

theorem get_card_name_cases_witness :
    get_card_name (fun s => s) sample_intel_device =
      "Intel Corporation HD Graphics 620" :=
  (get_card_name_cases (fun s => s) sample_intel_device).2.2.2
    "Intel Corporation" "HD Graphics 620" (by decide) (by decide)

/-- C9: `send_dbus_event` emits nothing when no D-Bus connection is
established (the state, which the function never writes, is untouched by
construction), and an emission only ever happens with a live connection. -/
theorem no_connection_no_publication (st : ControlState) :
    (st.connection = false → send_dbus_event st = none) ∧
    (∀ ev, send_dbus_event st = some ev → st.connection = true) := by
  unfold send_dbus_event
  cases h : st.connection
  · simp
  · simp

theorem no_connection_no_publication_witness :
    send_dbus_event disconnected_state = none :=
  (no_connection_no_publication disconnected_state).1 rfl

/-- C10: an override vendor or product property that is present but empty
behaves exactly like an absent one in `get_card_name`, while a
database-lookup value is used verbatim even when empty: on a device whose
only name source is an empty `ID_VENDOR_FROM_DATABASE`, the name differs
from the one computed with that property absent. -/
theorem empty_override_treated_as_absent (cleanup : String → String)
    (dev : UdevDevice) :
    get_card_name cleanup { dev with vendorOverrideName := some "" } =
      get_card_name cleanup { dev with vendorOverrideName := none } ∧
    get_card_name cleanup { dev with productOverrideName := some "" } =
      get_card_name cleanup { dev with productOverrideName := none } ∧
    get_card_name (fun s => s) empty_vendor_device ≠
      get_card_name (fun s => s)
        { empty_vendor_device with vendorFromDatabase := none } := by
  refine ⟨?_, ?_, by decide⟩
  · unfold get_card_name effective_vendor effective_product
    simp
  · unfold get_card_name effective_vendor effective_product
    simp

/-- C1: for production enumeration (no fake cards), the number of cards in
the returned list equals the number of queried devices that pass the
render-node filter and have a non-empty resolved environment; and a device
whose resolved environment is empty contributes nothing: dropping it from
the query result leaves the returned card list unchanged. -/
theorem enumeration_gpu_count (cleanup : String → String) :
    (∀ devices : List UdevDevice,
      (get_drm_cards cleanup false devices).length =
        (devices.filter
          (fun d => is_render_node d && (get_card_env d).isSome)).length) ∧
    (∀ (pre post : List UdevDevice) (dev : UdevDevice),
      get_card_env dev = none →
      get_drm_cards cleanup false (pre ++ dev :: post) =
        get_drm_cards cleanup false (pre ++ post)) := by
  constructor
  · intro devices
    rw [get_drm_cards_length_eq, collect_cards_false_eq,
        collect_real_cards_length_eq]
  · intro pre post dev h
    have hdata : get_card_data cleanup dev = none := by
      unfold get_card_data
      rw [h]
    have hnone : (if is_render_node dev then get_card_data cleanup dev
        else none) = none := by
      rw [hdata]
      split <;> rfl
    have hcoll : collect_real_cards cleanup (pre ++ dev :: post) =
        collect_real_cards cleanup (pre ++ post) := by
      unfold collect_real_cards
      rw [List.filterMap_append, List.filterMap_append, List.filterMap_cons,
          hnone]
    unfold get_drm_cards
    simp only [collect_cards_false_eq, hcoll]

theorem enumeration_gpu_count_witness :
    get_drm_cards (fun s => s) false
        ([sample_intel_device] ++ no_tag_device :: [sample_nvidia_device]) =
      get_drm_cards (fun s => s) false
        ([sample_intel_device] ++ [sample_nvidia_device]) :=
  (enumeration_gpu_count (fun s => s)).2
    [sample_intel_device] [sample_nvidia_device] no_tag_device (by decide)

/-- C2: `uevent_cb` decides change by comparing the new card count with
the stored one: equal counts discard the new list and leave the state
untouched with no emission, whatever the card contents; differing counts
replace the whole snapshot and hand the new state to `send_dbus_event`,
which emits the notification whenever a connection is live. -/
theorem uevent_count_only_reconcile (cleanup : String → String) (fake : Bool)
    (devices : List UdevDevice) (st : ControlState) :
    ((get_drm_cards cleanup fake devices).length = st.num_gpus →
      uevent_cb cleanup fake devices st = (st, none)) ∧
    ((get_drm_cards cleanup fake devices).length ≠ st.num_gpus →
      uevent_cb cleanup fake devices st =
        ({ num_gpus := (get_drm_cards cleanup fake devices).length
           cards := get_drm_cards cleanup fake devices
           connection := st.connection },
         send_dbus_event
           { num_gpus := (get_drm_cards cleanup fake devices).length
             cards := get_drm_cards cleanup fake devices
             connection := st.connection }) ∧
      (st.connection = true →
        (uevent_cb cleanup fake devices st).2 =
          some { hasDualGpu :=
                   decide (2 ≤ (get_drm_cards cleanup fake devices).length)
                 numGPUs := (get_drm_cards cleanup fake devices).length
                 gpus := get_drm_cards cleanup fake devices })) := by
  constructor
  · intro h
    unfold uevent_cb
    simp [h]
  · intro h
    constructor
    · unfold uevent_cb
      simp [h]
    · intro hconn
      unfold uevent_cb send_dbus_event
      simp [h, hconn]

theorem uevent_count_only_witness :
    uevent_cb (fun s => s) false [sample_intel_device] stale_state =
      (stale_state, none) :=
  (uevent_count_only_reconcile (fun s => s) false [sample_intel_device]
    stale_state).1 (by decide)

/-- C5: when the returned card list has length one, its card has
`is_default` forced to true; for any other length the post-processing step
is the identity, and each retained card's `is_default` is exactly the
parent's `boot_vga` attribute as read by `get_card_data`. -/
theorem single_card_forced_default (cleanup : String → String) (fake : Bool)
    (devices : List UdevDevice) :
    ((get_drm_cards cleanup fake devices).length = 1 →
      ∀ c ∈ get_drm_cards cleanup fake devices, c.is_default = true) ∧
    ((get_drm_cards cleanup fake devices).length ≠ 1 →
      get_drm_cards cleanup fake devices = collect_cards cleanup fake devices ∧
      ∀ (dev : UdevDevice) (c : CardData),
        get_card_data cleanup dev = some c → c.is_default = dev.bootVga) := by
  constructor
  · intro h1 c hc
    by_cases hcond : (collect_cards cleanup fake devices).length = 1
    · unfold get_drm_cards at hc
      rw [if_pos hcond] at hc
      rw [List.mem_map] at hc
      obtain ⟨c', _, rfl⟩ := hc
      rfl
    · exact absurd ((get_drm_cards_length_eq cleanup fake devices).symm.trans
        h1) hcond
  · intro h1
    have hcond : (collect_cards cleanup fake devices).length ≠ 1 := by
      intro hc
      exact h1 ((get_drm_cards_length_eq cleanup fake devices).trans hc)
    constructor
    · unfold get_drm_cards
      rw [if_neg hcond]
    · intro dev c hc
      exact (get_card_data_fields cleanup dev c hc).2.1

theorem single_card_forced_default_witness :
    ((get_drm_cards (fun s => s) false [sample_nvidia_device]).headI).is_default
      = true :=
  (single_card_forced_default (fun s => s) false [sample_nvidia_device]).1
    (by decide) _ (by decide)

/-- C8: with fake mode enabled the returned card list is always the fake
Intel card, then the real cards in order, then the fake Trident card; and
when zero real devices are retained, the initial snapshot publishes
`NumGPUs = 2`, `HasDualGpu = true` and exactly the two fake cards in that
order. -/
theorem fake_mode_snapshot (cleanup : String → String)
    (devices : List UdevDevice) :
    get_drm_cards cleanup true devices =
      fake_intel_card ::
        (collect_real_cards cleanup devices ++ [fake_trident_card]) ∧
    (collect_real_cards cleanup devices = [] →
      get_drm_cards cleanup true devices =
        [fake_intel_card, fake_trident_card] ∧
      send_dbus_event (init_state cleanup true devices true) =
        some { hasDualGpu := true
               numGPUs := 2
               gpus := [fake_intel_card, fake_trident_card] }) := by
  have hcoll : collect_cards cleanup true devices =
      fake_intel_card ::
        (collect_real_cards cleanup devices ++ [fake_trident_card]) := by
    unfold collect_cards
    simp
  have hlen : (collect_cards cleanup true devices).length ≠ 1 := by
    rw [hcoll]
    simp [List.length_cons, List.length_append]
  have hmain : get_drm_cards cleanup true devices =
      fake_intel_card ::
        (collect_real_cards cleanup devices ++ [fake_trident_card]) := by
    unfold get_drm_cards
    rw [if_neg hlen, hcoll]
  refine ⟨hmain, fun h0 => ?_⟩
  have h2 : get_drm_cards cleanup true devices =
      [fake_intel_card, fake_trident_card] := by
    rw [hmain, h0]
    rfl
  refine ⟨h2, ?_⟩
  unfold send_dbus_event init_state
  rw [h2]
  simp

theorem fake_mode_snapshot_witness :
    send_dbus_event (init_state (fun s => s) true [] true) =
      some { hasDualGpu := true
             numGPUs := 2
             gpus := [fake_intel_card, fake_trident_card] } :=
  ((fake_mode_snapshot (fun s => s) []).2 rfl).2

/-- C7 counterexample: a render node whose only available name source is
an `ID_VENDOR_FROM_DATABASE` property holding the empty string is
published (it has a path tag, hence a non-empty environment) with an empty
name, not with the "Unknown Graphics Controller" fallback. -/
theorem published_empty_name_counterexample :
    (get_drm_cards (fun s => s) false [empty_vendor_device]).map
        CardData.name = [""] ∧
    ("" : String) ≠ "Unknown Graphics Controller" := by decide

theorem effective_vendor_ne_empty (dev : UdevDevice)
    (hv : ∀ s, dev.vendorFromDatabase = some s → s ≠ "") :
    ∀ s, effective_vendor dev = some s → s ≠ "" := by
  intro s hs
  unfold effective_vendor at hs
  cases ho : dev.vendorOverrideName <;> rw [ho] at hs <;> dsimp only at hs
  · exact hv s hs
  case some o =>
    by_cases he : o = ""
    · rw [if_pos he] at hs
      exact hv s hs
    · rw [if_neg he] at hs
      cases hs
      exact he

theorem effective_product_ne_empty (dev : UdevDevice)
    (hp : ∀ s, dev.modelFromDatabase = some s → s ≠ "") :
    ∀ s, effective_product dev = some s → s ≠ "" := by
  intro s hs
  unfold effective_product at hs
  cases ho : dev.productOverrideName <;> rw [ho] at hs <;> dsimp only at hs
  · exact hp s hs
  case some o =>
    by_cases he : o = ""
    · rw [if_pos he] at hs
      exact hp s hs
    · rw [if_neg he] at hs
      cases hs
      exact he

theorem get_card_name_ne_empty (cleanup : String → String) (dev : UdevDevice)
    (hclean : ∀ s : String, s ≠ "" → cleanup s ≠ "")
    (hv : ∀ s, dev.vendorFromDatabase = some s → s ≠ "")
    (hp : ∀ s, dev.modelFromDatabase = some s → s ≠ "") :
    get_card_name cleanup dev ≠ "" := by
  have hv' := effective_vendor_ne_empty dev hv
  have hp' := effective_product_ne_empty dev hp
  unfold get_card_name
  cases hev : effective_vendor dev <;> cases hep : effective_product dev <;>
    dsimp only
  · decide
  · exact hp' _ hep
  · exact hv' _ hev
  case some.some v p =>
    apply hclean
    intro hcontr
    have hlen := congrArg String.length hcontr
    rw [String.length_append, String.length_append] at hlen
    have h1 : (" " : String).length = 1 := rfl
    have h0 : ("" : String).length = 0 := rfl
    rw [h1, h0] at hlen
    omega

/-- C7 amended: every card in a published list has a non-empty name,
provided the database-lookup vendor/product properties are non-empty
whenever present and the cleanup utility maps non-empty strings to
non-empty strings; the code checks emptiness only on the override
properties, so an empty database value defeats the fallback (see the
counterexample). -/
theorem published_name_nonempty (cleanup : String → String) (fake : Bool)
    (devices : List UdevDevice)
    (hclean : ∀ s : String, s ≠ "" → cleanup s ≠ "")
    (hdb : ∀ dev ∈ devices,
      (∀ s, dev.vendorFromDatabase = some s → s ≠ "") ∧
      (∀ s, dev.modelFromDatabase = some s → s ≠ "")) :
    ∀ c ∈ get_drm_cards cleanup fake devices, c.name ≠ "" := by
  have hcoll : ∀ c ∈ collect_cards cleanup fake devices, c.name ≠ "" := by
    intro c hc
    unfold collect_cards at hc
    rw [List.mem_append, List.mem_append] at hc
    rcases hc with (hc | hc) | hc
    · cases fake <;>
        simp only [if_true, if_false, Bool.false_eq_true] at hc
      · cases hc
      · rw [List.mem_singleton] at hc
        subst hc
        decide
    · unfold collect_real_cards at hc
      rw [List.mem_filterMap] at hc
      obtain ⟨d, hdmem, hd⟩ := hc
      by_cases hr : is_render_node d = true
      · rw [if_pos hr] at hd
        obtain ⟨-, -, hname⟩ := get_card_data_fields cleanup d c hd
        rw [hname]
        exact get_card_name_ne_empty cleanup d hclean
          (hdb d hdmem).1 (hdb d hdmem).2
      · rw [if_neg hr] at hd
        cases hd
    · cases fake <;>
        simp only [if_true, if_false, Bool.false_eq_true] at hc
      · cases hc
      · rw [List.mem_singleton] at hc
        subst hc
        decide
  intro c hc
  unfold get_drm_cards at hc
  split at hc
  · rw [List.mem_map] at hc
    obtain ⟨c', hc', rfl⟩ := hc
    exact hcoll c' hc'
  · exact hcoll c hc

theorem published_name_nonempty_witness :
    ((get_drm_cards (fun s => s) false [sample_intel_device]).headI).name ≠ "" :=
  published_name_nonempty (fun s => s) false [sample_intel_device]
    (fun _ h => h)
    (fun dev hdev => by
      rw [List.mem_singleton] at hdev
      subst hdev
      constructor
      · intro s hs
        rw [show sample_intel_device.vendorFromDatabase =
              some "Intel Corporation" from rfl, Option.some_inj] at hs
        subst hs
        decide
      · intro s hs
        rw [show sample_intel_device.modelFromDatabase =
              some "HD Graphics 620" from rfl, Option.some_inj] at hs
        subst hs
        decide)
    _ (by decide)
